import Mathlib

/-!
Verification of the retrieval-and-reasoning pipeline of the `bajaj_hack`
repository (an insurance document question-answering service).

The development shallowly embeds the Python source:
  * `src/utils/llm_reasoner.py` — amount-extraction fallback and decision
    post-processing (`extract_amount_from_clauses`, `get_decision`);
  * `src/utils/loader.py` — document chunking metadata (`load_and_chunk`);
  * `src/utils/embedder.py` — vector-store upsert (`store_chunks_qdrant`),
    modelled with an explicit effect trace;
  * `src/main.py` — the authenticated `/api/v1/hackrx/run` endpoint handler.

External collaborators (the LLM, the JSON parser of the standard library,
the PDF/DOCX loaders, the text splitter, the vector database client and the
HTTP framework's header delivery) are passed in as explicit parameters or
environments: the embedding is universally quantified over their outcomes.
Python floats are modelled as exact rationals; the concrete values appearing
in the claims (5000.0, 0.5) are exactly representable, so no rounding is
involved. Python strings are modelled as Lean strings (lists of unicode
characters), and the character classes of the one regular expression in the
source (`\d`, `\s`) are modelled over their ASCII portions, which covers
every string appearing in the claims.
-/

/-! ## Python string primitives -/

/-- The whitespace characters stripped by Python's `str.strip()` and matched
by the regex class `\s` (ASCII portion). -/
def pyIsSpace (c : Char) : Bool :=
  c = ' ' || c = '\t' || c = '\n' || c = '\x0d' || c = '\x0b' || c = '\x0c'

/-- Remove characters satisfying `p` from both ends of a character list:
the semantics of Python's `str.strip(chars)`. -/
def pyStripBy (p : Char → Bool) (s : List Char) : List Char :=
  ((s.dropWhile p).reverse.dropWhile p).reverse

/-- Python's `str.strip()` with no argument: strip whitespace at both ends. -/
def pyStrip (s : String) : String :=
  ⟨pyStripBy pyIsSpace s.data⟩

/-- Python's `str.lower()` (character-wise). -/
def pyLower (s : String) : String :=
  ⟨s.data.map Char.toLower⟩

/-- The value of a list of decimal digit characters. -/
def natOfDigits (ds : List Char) : Nat :=
  ds.foldl (fun a c => a * 10 + (c.toNat - 48)) 0

/-! ## The currency regex of `extract_amount_from_clauses`

`src/utils/llm_reasoner.py` uses the pattern
`(?:INR|Rs\.?|₹)\s?[\d,]+(?:\.\d+)?` with `re.search` (leftmost match,
alternatives tried left to right, `?` and `+` greedy with backtracking).
The matcher below implements exactly this pattern's semantics.
-/

/-- Match a literal character sequence at the head of the input, returning
the remaining input. -/
def dropLit : List Char → List Char → Option (List Char)
  | [], s => some s
  | _, [] => none
  | p :: ps, c :: cs => if p = c then dropLit ps cs else none

/-- A character of the regex class `[\d,]`. -/
def isDigitComma (c : Char) : Bool := c.isDigit || c = ','

/-- Greedy match of `[\d,]+(?:\.\d+)?` at the head of the input, returning
the matched characters. -/
def matchNumber (s : List Char) : Option (List Char) :=
  let body := s.takeWhile isDigitComma
  let rest := s.dropWhile isDigitComma
  if body.isEmpty then none
  else
    match rest with
    | c :: rest2 =>
      if c = '.' then
        let frac := rest2.takeWhile Char.isDigit
        if frac.isEmpty then some body
        else some (body ++ '.' :: frac)
      else some body
    | [] => some body

/-- Greedy match of `\s?[\d,]+(?:\.\d+)?` at the head of the input
(the optional whitespace backtracks when the number part fails). -/
def matchTail (s : List Char) : Option (List Char) :=
  match s with
  | c :: rest =>
    if pyIsSpace c then
      match matchNumber rest with
      | some m => some (c :: m)
      | none => matchNumber s
    else matchNumber s
  | [] => none

/-- Try one alternative of the prefix group at this position. -/
def tryAlt (lit : List Char) (s : List Char) : Option (List Char) :=
  match dropLit lit s with
  | some rest => (matchTail rest).map (fun m => lit ++ m)
  | none => none

/-- Match the whole pattern anchored at this position: the alternatives
`INR`, `Rs.`, `Rs`, `₹` are tried in the order Python's engine tries them
(`Rs\.?` greedy, falling back to `Rs` when the dot path fails). -/
def matchPatAt (s : List Char) : Option (List Char) :=
  (tryAlt "INR".data s) <|> (tryAlt "Rs.".data s) <|>
    (tryAlt "Rs".data s) <|> (tryAlt "₹".data s)

/-- Semantics of `re.search`: scan positions left to right, first position with a match
wins; returns the matched substring (`match.group(0)`). -/
def searchPat : List Char → Option (List Char)
  | [] => none
  | c :: rest =>
    match matchPatAt (c :: rest) with
    | some m => some m
    | none => searchPat rest

/-! ## Python `float()` on the cleaned match -/

/-- Python's `float(s)` restricted to strings of digits and dots, which is
all `extract_amount_from_clauses` ever passes it (the match is filtered
through `re.sub(r'[^\d.]', '', ...)` first): accepts at most one dot and at
least one digit, otherwise raises `ValueError` (here: `none`). The value is
exact, as a rational. -/
def pyFloatOfCleaned (s : List Char) : Option ℚ :=
  if s.all (fun c => c.isDigit || c = '.') ∧ s.count '.' ≤ 1 ∧ s.any Char.isDigit then
    let ip := s.takeWhile (fun c => c ≠ '.')
    let fp := (s.dropWhile (fun c => c ≠ '.')).drop 1
    some (mkRat (natOfDigits ip * 10 ^ fp.length + natOfDigits fp) (10 ^ fp.length))
  else none

/-- The integer-plus-fraction value `pyFloatOfCleaned` builds equals the
usual decimal reading of the string. -/
theorem pyFloatOfCleaned_value (ip fp : Nat) (k : Nat) :
    mkRat (ip * 10 ^ k + fp) (10 ^ k) = (ip : ℚ) + (fp : ℚ) / (10 : ℚ) ^ k := by
  rw [Rat.mkRat_eq_div]
  push_cast
  field_simp

/-- The character class kept by `re.sub(r'[^\d.]', '', num_str)`:
digits and the dot. -/
def keepDigitDot (c : Char) : Bool := c.isDigit || c = '.'

/-! ## `llm_reasoner.py`: retrieved documents and the amount fallback -/

/-- A retrieved document as the reasoner sees it: only its text
(`doc.page_content`) is read by `extract_amount_from_clauses`. -/
structure RDoc where
  page_content : String

/-- The function `extract_amount_from_clauses(retrieved_docs)` of
`src/utils/llm_reasoner.py`: for each document in retrieval order, search
its text for the currency pattern; on a match, strip every character that is
not a digit or a dot and parse as a float; a float-parse failure falls
through to the next document; no match anywhere yields `None`. -/
def extract_amount_from_clauses : List RDoc → Option ℚ
  | [] => none
  | d :: rest =>
    match searchPat d.page_content.data with
    | some numStr =>
      match pyFloatOfCleaned (numStr.filter keepDigitDot) with
      | some q => some q
      | none => extract_amount_from_clauses rest
    | none => extract_amount_from_clauses rest

/-! ## A JSON value model and Python dict operations

`json.loads` of the standard library is external: the decision and query
parsers receive it as a parameter `loads : String → Option Json`, `none`
standing for `json.JSONDecodeError`. Parsed objects are association lists
with Python dict semantics (`get`; item assignment keeps an existing key's
position and appends a new key at the end).
-/

inductive Json where
  | null
  | jbool (b : Bool)
  | num (q : ℚ)
  | str (s : String)
  | arr (xs : List Json)
  | obj (fields : List (String × Json))

/-- Python `dict.get(k)`: the value at the first binding of `k`, if any. -/
def dget (k : String) : List (String × Json) → Option Json
  | [] => none
  | (k2, v) :: rest => if k2 = k then some v else dget k rest

/-- Python `d[k] = v`: replace the value at an existing binding of `k`
in place, or append a new binding at the end. -/
def dset (k : String) (v : Json) : List (String × Json) → List (String × Json)
  | [] => [(k, v)]
  | (k2, v2) :: rest => if k2 = k then (k2, v) :: rest else (k2, v2) :: dset k v rest

/-- A Python value of type `float | None` as a JSON value. -/
def jsonOfAmount : Option ℚ → Json
  | none => Json.null
  | some q => Json.num q

/-! ## `get_decision`'s output cleaning and post-processing -/

/-- The backtick character. -/
def backquote : Char := Char.ofNat 96

/-- A character of the set stripped by `raw_output.strip("` \n")`. -/
def fenceStripChar (c : Char) : Bool :=
  c = backquote || c = ' ' || c = '\n'

/-- Three backticks, the Markdown fence opener tested by
`raw_output.startswith("```")`. -/
def fenceMark : String := ⟨[backquote, backquote, backquote]⟩

/-- The cleaning `get_decision` applies to the LLM's `response.text`:
`strip()`, then, when the result opens with a Markdown fence, strip
backticks/spaces/newlines from both ends and drop a leading `json` tag. -/
def clean_raw (respText : String) : String :=
  let raw := pyStrip respText
  if raw.startsWith fenceMark then
    let r2 : String := ⟨pyStripBy fenceStripChar raw.data⟩
    if r2.startsWith "json" then pyStrip (r2.drop 4) else r2
  else raw

/-- Does the parsed result's `amount` trigger the fallback?
Python's `result.get("amount") is None`: the key is absent or bound to
JSON null. -/
def amountIsNone (result : List (String × Json)) : Bool :=
  match dget "amount" result with
  | none => true
  | some Json.null => true
  | some _ => false

/-- The function `get_decision` of `src/utils/llm_reasoner.py`, from the point where the
LLM's reply text is in hand: clean the text, parse it with `loads`
(`json.loads`); a parse failure is caught and yields the empty mapping; a
parsed object has its `amount` overwritten with
`extract_amount_from_clauses` over the retrieved documents exactly when the
parsed `amount` is null or absent. A parsed non-object makes Python's
`result.get` raise an uncaught `AttributeError`, modelled as `Except.error`. -/
def get_decision (loads : String → Option Json) (retrieved_docs : List RDoc)
    (respText : String) : Except String (List (String × Json)) :=
  match loads (clean_raw respText) with
  | none => .ok []
  | some (Json.obj result) =>
    if amountIsNone result then
      .ok (dset "amount" (jsonOfAmount (extract_amount_from_clauses retrieved_docs)) result)
    else
      .ok result
  | some _ => .error "AttributeError: the parsed value is not a mapping"

/-! ## `parse_query` (Query Parser) -/

/-- Modelled from the spec: the Query Parser component's `parse_query` is
not present under `src/` (the spec's §4.3 and the `/query` endpoint
description reference it, but no file of the repository defines it).
Faithful to the spec's words: one LLM call asks for five named fields as
JSON; Markdown code-fence wrapping is stripped before parsing; "On any
exception (network, malformed JSON) returns `{raw_query: text, error:
message}` rather than failing the caller". The LLM call outcome (`Except`:
an exception's message, or the reply text) and the JSON parser are
parameters. -/
def parse_query (loads : String → Option Json) (text : String)
    (llm : Except String String) : List (String × Json) :=
  match llm with
  | .error msg => [("raw_query", Json.str text), ("error", Json.str msg)]
  | .ok out =>
    match loads (clean_raw out) with
    | some (Json.obj fields) => fields
    | some _ => [("raw_query", Json.str text),
                 ("error", Json.str "LLM output is not a JSON object")]
    | none => [("raw_query", Json.str text),
               ("error", Json.str "Invalid JSON from LLM")]

/-- The failure condition of the spec's `parse_query` contract: the LLM call
raised (with the non-empty message every Python exception renders to), or
its output did not parse as a JSON object. -/
def parseQueryFailed (loads : String → Option Json) (llm : Except String String) : Prop :=
  match llm with
  | .error msg => msg ≠ ""
  | .ok out => ∀ fields, loads (clean_raw out) ≠ some (Json.obj fields)

/-! ## `loader.py`: `load_and_chunk`

The PDF loader (`PyPDFLoader`), the DOCX paragraph reader and the
`RecursiveCharacterTextSplitter` are third-party collaborators: the loaded
PDF documents, the splitter over them, the DOCX paragraph texts and the
plain-text splitter are parameters. The repository's own logic — extension
dispatch, page-number coercion and metadata assembly — is embedded from
`src/utils/loader.py`.
-/

/-- A Python value that can sit in a loaded document's `page` metadata. -/
inductive PyVal where
  | pstr (s : String)
  | pint (n : Int)
  | pnone
deriving DecidableEq

/-- Python `int(s)` on a string: optional surrounding whitespace, optional
sign, then decimal digits; anything else raises (here: `none`). -/
def pyIntOfStr (s : String) : Option Int :=
  match (pyStrip s).data with
  | [] => none
  | '-' :: ds => if ds ≠ [] ∧ ds.all Char.isDigit then some (-(natOfDigits ds : Int)) else none
  | '+' :: ds => if ds ≠ [] ∧ ds.all Char.isDigit then some ((natOfDigits ds : Int)) else none
  | ds => if ds.all Char.isDigit then some ((natOfDigits ds : Int)) else none

/-- The `try: int(page_number) except: None` coercion of `loader.py`. -/
def pyIntOf : PyVal → Option Int
  | .pint n => some n
  | .pstr s => pyIntOfStr s
  | .pnone => none

/-- A document as produced by the PDF loader / splitter: its text and its
`page` metadata entry (absent when the loader attached none; `loader.py`
reads it with `metadata.get("page", "?")`). -/
structure PyDoc where
  page_content : String
  pageMeta : Option PyVal

/-- Python's `os.path.basename`: the part after the last path separator. -/
def pyBasename (p : String) : String :=
  ⟨(p.data.reverse.takeWhile (fun c => c ≠ '/')).reverse⟩

/-- The extension part of `os.path.splitext`, over a basename: everything
from the last dot on, provided some character of the basename strictly
before that dot is not itself a dot (so `.bashrc` has no extension). -/
def extOfBase (s : List Char) : List Char :=
  let rev := s.reverse
  let pre := rev.takeWhile (fun c => c ≠ '.')
  if pre.length = rev.length then []
  else if (rev.drop (pre.length + 1)).any (fun c => c ≠ '.') then
    '.' :: pre.reverse
  else []

/-- Python's `os.path.splitext(file_path)[1]`. -/
def pathExt (p : String) : String :=
  ⟨extOfBase (pyBasename p).data⟩

/-- A chunk as `load_and_chunk` returns it: text plus the metadata mapping
`{"source": filename, "page": page}`. -/
structure Chunk where
  text : String
  source : String
  page : Option Int
deriving DecidableEq

/-- The error message of `loader.py`'s unsupported-extension branch. -/
def unsupportedMsg : String :=
  "Unsupported file format. Only .pdf and .docx are supported."

/-- The function `load_and_chunk(file_path)` of `src/utils/loader.py`.
`pdfDocs` is what `PyPDFLoader(file_path).load()` returned,
`split_documents` the splitter's `split_documents`, `docxParas` the
paragraph texts of the DOCX (`para.text` for each paragraph), and
`split_text` the splitter's `split_text`. Dispatch is on the lowercased
extension: the PDF branch re-derives each split chunk's metadata as
`{"source": basename, "page": int(page) or None}`; the DOCX branch joins
the non-blank paragraphs with newlines, splits the flat text, and numbers
the chunks 1-based; any other extension raises `ValueError`. -/
def load_and_chunk (file_path : String)
    (pdfDocs : List PyDoc)
    (split_documents : List PyDoc → List PyDoc)
    (docxParas : List String)
    (split_text : String → List String) : Except String (List Chunk) :=
  let ext := pyLower (pathExt file_path)
  let filename := pyBasename file_path
  if ext = ".pdf" then
    .ok ((split_documents pdfDocs).map (fun d =>
      { text := d.page_content
        source := filename
        page := pyIntOf (d.pageMeta.getD (PyVal.pstr "?")) }))
  else if ext = ".docx" then
    let raw_text := String.intercalate "\n" (docxParas.filter (fun t => pyStrip t ≠ ""))
    .ok ((split_text raw_text).enum.map (fun p =>
      { text := p.2, source := filename, page := some ((p.1 : Int) + 1) }))
  else
    .error unsupportedMsg

/-! ## `embedder.py`: `store_chunks_qdrant` with an effect trace

The embedding model, the Qdrant client and the vectorstore wrapper are
external services: an environment `QEnv` fixes the outcome of each call,
and the function returns, next to its result, the trace of external
operations it attempted, in order.
-/

inductive QEffect where
  | getEmbeddings
  | getClient
  | getVectorstore
  | listCollections
  | createCollection
  | addTexts
  | fromTexts
deriving DecidableEq

/-- Outcomes of the external calls `store_chunks_qdrant` can make. -/
structure QEnv where
  embeddingsR : Except String Unit
  clientR : Except String Unit
  vectorstoreR : Except String Unit
  collectionsR : Except String (List String)
  createR : Except String Unit
  addTextsR : Except String Unit
  fromTextsR : Except String Unit

/-- The fixed collection name of `embedder.py`. -/
def QDRANT_COLLECTION : String := "insurance_docs"

/-- The tail of `store_chunks_qdrant`: `try: vectorstore.add_texts(...)
except Exception: Qdrant.from_texts(...)` — any `add_texts` failure is
caught and the same texts are attempted once more through `from_texts`,
whose own failure propagates. -/
def upsertStep (env : QEnv) (pre : List QEffect) : Except String Unit × List QEffect :=
  match env.addTextsR with
  | .ok _ => (.ok (), pre ++ [QEffect.addTexts])
  | .error _ =>
    match env.fromTextsR with
    | .ok _ => (.ok (), pre ++ [QEffect.addTexts, QEffect.fromTexts])
    | .error e => (.error e, pre ++ [QEffect.addTexts, QEffect.fromTexts])

/-- The function `store_chunks_qdrant(chunks)` of `src/utils/embedder.py`: an empty
chunk list raises `ValueError("Chunks list is empty.")` before anything
else; then the three singletons are obtained (embeddings, client,
vectorstore — a construction failure propagates); `get_collections` is
attempted, its failure caught and treated as an empty listing; the
collection is created when absent from the listing (creation failure
propagates); finally the upsert, with its `from_texts` fallback. -/
def store_chunks_qdrant (env : QEnv) (chunks : List Chunk) :
    Except String Unit × List QEffect :=
  if chunks.isEmpty then (.error "Chunks list is empty.", [])
  else
    match env.embeddingsR with
    | .error e => (.error e, [QEffect.getEmbeddings])
    | .ok _ =>
      match env.clientR with
      | .error e => (.error e, [QEffect.getEmbeddings, QEffect.getClient])
      | .ok _ =>
        match env.vectorstoreR with
        | .error e => (.error e, [QEffect.getEmbeddings, QEffect.getClient,
                                  QEffect.getVectorstore])
        | .ok _ =>
          let existing := match env.collectionsR with
            | .ok l => l
            | .error _ => []
          let pre := [QEffect.getEmbeddings, QEffect.getClient,
                      QEffect.getVectorstore, QEffect.listCollections]
          if existing.contains QDRANT_COLLECTION then
            upsertStep env pre
          else
            match env.createR with
            | .error e => (.error e, pre ++ [QEffect.createCollection])
            | .ok _ => upsertStep env (pre ++ [QEffect.createCollection])

/-- Is this effect an attempt to store the chunks in the vector index
(either through `add_texts` or through the `from_texts` fallback)? -/
def isStoreAttempt (e : QEffect) : Bool :=
  e = QEffect.addTexts || e = QEffect.fromTexts

/-! ## `main.py`: the authenticated `/api/v1/hackrx/run` handler

The HTTP framework, the downloader (`httpx`), the loader, the store and the
LLM are external at this level: a `RunEnv` fixes their outcomes. The header
is modelled as the string the handler receives, the empty string when the
request carried none (the framework's header delivery is abstracted). The
handler's own logic — the bearer-token check, the error mapping to status
codes 401/400/500, and the per-question answer loop with its caught
generation failures — is embedded from `src/main.py`. The returned trace
lists the external processing steps attempted, in order.
-/

inductive REffect where
  | download
  | chunkDoc
  | storeDoc
  | searchQ (q : String)
  | llmGen (q : String)
deriving DecidableEq

/-- Outcomes of the external calls the handler makes. `chunksR` is what
`load_and_chunk` returned on the downloaded temp file (or the exception it
raised), `searchR q` the similarity search for `q`, `genR q` the LLM answer
for `q`'s prompt. -/
structure RunEnv where
  downloadR : Except String Unit
  chunksR : Except String (List Chunk)
  storeR : Except String Unit
  searchR : String → Except String (List RDoc)
  genR : String → Except String String

/-- One question's answer, when its similarity search succeeded:
`model.generate_content(prompt).text.strip()`, a generation failure being
caught and rendered as an error string appended in the answer's place. -/
def answerOf (env : RunEnv) (q : String) : String :=
  match env.genR q with
  | .ok t => pyStrip t
  | .error e => "Error generating answer: " ++ e

/-- The handler's answer loop: questions in order; a similarity-search
failure escapes the loop (uncaught inside it), a generation failure is
caught and becomes the answer string. Returns the loop's outcome and the
trace of search/generation attempts. -/
def answersLoop (env : RunEnv) : List String → Except String (List String) × List REffect
  | [] => (.ok [], [])
  | q :: qs =>
    match env.searchR q with
    | .error e => (.error e, [REffect.searchQ q])
    | .ok _ =>
      let step := answersLoop env qs
      ((match step.1 with
        | .ok rest => .ok (answerOf env q :: rest)
        | .error e => .error e),
       REffect.searchQ q :: REffect.llmGen q :: step.2)

/-- Python's `s.startswith(p)`. -/
def pyStartsWith (s p : String) : Bool :=
  (dropLit p.data s.data).isSome

/-- Python's character slice `s[n:]`. -/
def pySliceFrom (s : String) (n : Nat) : String :=
  ⟨s.data.drop n⟩

/-- The handler's authentication guard, verbatim from `src/main.py`:
`not authorization or not authorization.startswith("Bearer ") or
authorization[7:] != API_KEY` (a missing header reaches the handler as the
empty, falsy string). -/
def authRejected (api_key authorization : String) : Prop :=
  authorization = "" ∨ pyStartsWith authorization "Bearer " = false ∨
    pySliceFrom authorization 7 ≠ api_key

instance (api_key authorization : String) : Decidable (authRejected api_key authorization) := by
  unfold authRejected; infer_instance

/-- The `/api/v1/hackrx/run` handler of `src/main.py`. Failed
authentication raises 401 before anything is attempted. Then, in order:
the document download (an `httpx.RequestError` becomes 400), chunking of
the temp file, `store_chunks_qdrant` (which itself raises on an empty
chunk list) and the answer loop — an exception in any of these becomes
500. Success returns the answers, one per question. -/
def hackrx_run (api_key authorization : String) (questions : List String)
    (env : RunEnv) : Except (Nat × String) (List String) × List REffect :=
  if authRejected api_key authorization then
    (.error (401, "Invalid or missing API key"), [])
  else
    match env.downloadR with
    | .error e => (.error (400, "Failed to download document: " ++ e), [REffect.download])
    | .ok _ =>
      match env.chunksR with
      | .error e => (.error (500, "Processing error: " ++ e),
                     [REffect.download, REffect.chunkDoc])
      | .ok chunks =>
        let storeOutcome : Except String Unit :=
          if chunks.isEmpty then .error "Chunks list is empty." else env.storeR
        match storeOutcome with
        | .error e => (.error (500, "Processing error: " ++ e),
                       [REffect.download, REffect.chunkDoc, REffect.storeDoc])
        | .ok _ =>
          let step := answersLoop env questions
          let trace := [REffect.download, REffect.chunkDoc, REffect.storeDoc] ++ step.2
          match step.1 with
          | .ok answers => (.ok answers, trace)
          | .error e => (.error (500, "Processing error: " ++ e), trace)

/-! ## Helper lemmas -/

/-- Setting one key of a Python dict leaves every other key's value
unchanged. -/
theorem dget_dset_of_ne (k k2 : String) (v : Json) (m : List (String × Json))
    (h : k2 ≠ k) : dget k2 (dset k v m) = dget k2 m := by
  induction m with
  | nil =>
    have hne : ¬ k = k2 := fun hh => h hh.symm
    simp [dget, dset, hne]
  | cons p rest ih =>
    obtain ⟨kb, vb⟩ := p
    by_cases hb : kb = k
    · subst hb
      have hne : ¬ kb = k2 := fun hh => h hh.symm
      simp [dset, dget, hne]
    · simp [dset, hb, dget, ih]

/-- Setting a key of a Python dict makes `get` of that key return the new
value. -/
theorem dget_dset_self (k : String) (v : Json) (m : List (String × Json)) :
    dget k (dset k v m) = some v := by
  induction m with
  | nil => simp [dget, dset]
  | cons p rest ih =>
    obtain ⟨kb, vb⟩ := p
    by_cases hb : kb = k
    · subst hb; simp [dset, dget]
    · simp [dset, hb, dget, ih]

/-- The answer loop succeeds and answers every question in order when every
question's similarity search succeeds. -/
theorem answersLoop_ok (env : RunEnv) (qs : List String)
    (h : ∀ q ∈ qs, ∃ docs, env.searchR q = .ok docs) :
    (answersLoop env qs).1 = .ok (qs.map (answerOf env)) := by
  induction qs with
  | nil => rfl
  | cons q rest ih =>
    obtain ⟨docs, hd⟩ := h q (by simp)
    have hr := ih (fun p hp => h p (by simp [hp]))
    simp [answersLoop, hd]
    cases hs : (answersLoop env rest).1 with
    | ok l => rw [hs] at hr; simp at hr; simp [hr]
    | error e => rw [hs] at hr; simp at hr

/-! ## Claim theorems -/

/-- C1 (code bug): evaluating the code's amount fallback at the spec's own
example. For the retrieved texts `["Room rent up to Rs. 5,000 per day",
"General exclusions..."]`, `extract_amount_from_clauses` returns `0.5`, not
the `5000.0` the claim states: the regex match is `"Rs. 5,000"`, the strip
`re.sub(r'[^\d.]', '', ...)` keeps the dot of the `Rs.` symbol, the cleaned
string is `".5000"`, and `float(".5000")` is `0.5`. The second conjunct
records that the claim's expected value differs. -/
theorem C1_code_evaluation :
    extract_amount_from_clauses
      [⟨"Room rent up to Rs. 5,000 per day"⟩, ⟨"General exclusions..."⟩] =
      some ((1 : ℚ) / 2) ∧
    ((1 : ℚ) / 2) ≠ (5000 : ℚ) := by
  constructor
  · have h : extract_amount_from_clauses
        [⟨"Room rent up to Rs. 5,000 per day"⟩, ⟨"General exclusions..."⟩] =
        some (mkRat 5000 10000) := by rfl
    rw [h, Rat.mkRat_eq_div]
    norm_num
  · norm_num

/-- C2: `parse_query` (modelled from the spec; its code is not under
`src/`) never propagates a failure: whenever the LLM call raised (with the
non-empty message Python exceptions carry) or its output failed to parse as
a JSON object, the returned mapping holds `raw_query` equal to the original
input text and a non-empty `error` message. -/
theorem C2_parse_query_degrades (loads : String → Option Json)
    (text : String) (llm : Except String String)
    (h : parseQueryFailed loads llm) :
    dget "raw_query" (parse_query loads text llm) = some (Json.str text) ∧
    ∃ e, dget "error" (parse_query loads text llm) = some (Json.str e) ∧ e ≠ "" := by
  cases llm with
  | error msg =>
    unfold parseQueryFailed at h
    refine ⟨by simp [parse_query, dget], msg, by simp [parse_query, dget], h⟩
  | ok out =>
    unfold parseQueryFailed at h
    cases hl : loads (clean_raw out) with
    | none =>
      exact ⟨by simp [parse_query, hl, dget], "Invalid JSON from LLM",
        by simp [parse_query, hl, dget], by simp⟩
    | some j =>
      cases j with
      | obj fields => exact absurd hl (h fields)
      | null =>
        exact ⟨by simp [parse_query, hl, dget], "LLM output is not a JSON object",
          by simp [parse_query, hl, dget], by simp⟩
      | jbool b =>
        exact ⟨by simp [parse_query, hl, dget], "LLM output is not a JSON object",
          by simp [parse_query, hl, dget], by simp⟩
      | num q =>
        exact ⟨by simp [parse_query, hl, dget], "LLM output is not a JSON object",
          by simp [parse_query, hl, dget], by simp⟩
      | str s =>
        exact ⟨by simp [parse_query, hl, dget], "LLM output is not a JSON object",
          by simp [parse_query, hl, dget], by simp⟩
      | arr xs =>
        exact ⟨by simp [parse_query, hl, dget], "LLM output is not a JSON object",
          by simp [parse_query, hl, dget], by simp⟩

/-- C2 witness: a concrete malformed-JSON run of `parse_query`. -/
theorem C2_parse_query_degrades_witness :
    dget "raw_query" (parse_query (fun _ => none) "46M, knee surgery" (Except.ok "not json")) =
      some (Json.str "46M, knee surgery") ∧
    ∃ e, dget "error" (parse_query (fun _ => none) "46M, knee surgery" (Except.ok "not json")) =
      some (Json.str e) ∧ e ≠ "" :=
  C2_parse_query_degrades (fun _ => none) "46M, knee surgery" (Except.ok "not json")
    (fun _ hh => Option.noConfusion hh)

/-- C5: whenever the LLM's cleaned output fails to parse as JSON
(`json.loads` raises `JSONDecodeError`), `get_decision` returns the empty
mapping and no exception escapes to its caller. -/
theorem C5_get_decision_parse_failure (loads : String → Option Json)
    (retrieved_docs : List RDoc) (respText : String)
    (h : loads (clean_raw respText) = none) :
    get_decision loads retrieved_docs respText = .ok [] := by
  simp [get_decision, h]

/-- C5 witness: a concrete parse failure yields the empty mapping. -/
theorem C5_get_decision_parse_failure_witness :
    get_decision (fun _ => none) [⟨"Rs 100 covered"⟩] "```json broken" = .ok [] :=
  C5_get_decision_parse_failure (fun _ => none) [⟨"Rs 100 covered"⟩] "```json broken" rfl

/-- C10: when the LLM's output parses as a JSON mapping `m`, `get_decision`
returns `m` with every key other than `amount` unchanged; it overwrites
`amount` with the regex fallback (possibly null) exactly when `m`'s
`amount` is null or absent, and returns a non-null LLM-reported `amount`
untouched, with no fallback applied. -/
theorem C10_get_decision_amount_frame (loads : String → Option Json)
    (retrieved_docs : List RDoc) (respText : String) (m : List (String × Json))
    (h : loads (clean_raw respText) = some (Json.obj m)) :
    (amountIsNone m = false → get_decision loads retrieved_docs respText = .ok m) ∧
    (amountIsNone m = true →
      get_decision loads retrieved_docs respText =
        .ok (dset "amount"
          (jsonOfAmount (extract_amount_from_clauses retrieved_docs)) m) ∧
      dget "amount" (dset "amount"
          (jsonOfAmount (extract_amount_from_clauses retrieved_docs)) m) =
        some (jsonOfAmount (extract_amount_from_clauses retrieved_docs))) ∧
    (∀ result, get_decision loads retrieved_docs respText = .ok result →
      ∀ k, k ≠ "amount" → dget k result = dget k m) := by
  refine ⟨?_, ?_, ?_⟩
  · intro hno
    simp [get_decision, h, hno]
  · intro hyes
    exact ⟨by simp [get_decision, h, hyes], dget_dset_self _ _ _⟩
  · intro result hres k hk
    by_cases ha : amountIsNone m
    · simp [get_decision, h, ha] at hres
      subst hres
      exact dget_dset_of_ne "amount" k _ m hk
    · simp [get_decision, h, ha] at hres
      subst hres
      rfl

/-- C10 witness: a concrete run where the LLM reported a non-null amount
(returned untouched) and the frame condition holds. -/
theorem C10_get_decision_amount_frame_witness :
    get_decision
      (fun _ => some (Json.obj [("decision", Json.str "approved"), ("amount", Json.num 7)]))
      [⟨"Rs 100 covered"⟩] "ignored" =
      .ok [("decision", Json.str "approved"), ("amount", Json.num 7)] :=
  (C10_get_decision_amount_frame
      (fun _ => some (Json.obj [("decision", Json.str "approved"), ("amount", Json.num 7)]))
      [⟨"Rs 100 covered"⟩] "ignored"
      [("decision", Json.str "approved"), ("amount", Json.num 7)] rfl).1 rfl

/-- C6: storing an empty chunk list fails with the empty-input error for
every configuration of the embedding model, client, vectorstore and
collection listing, and the empty effect trace shows the failure happens
before any embedding, client construction, collection creation or upsert
is attempted. -/
theorem C6_store_chunks_empty_input (env : QEnv) :
    store_chunks_qdrant env [] = (.error "Chunks list is empty.", []) := by
  simp [store_chunks_qdrant]

/-- C7: `load_and_chunk` rejects every file path whose lowercased extension
is neither `.pdf` nor `.docx` with the explicit unsupported-format error,
producing no chunks, whatever the loaders and splitters would have
returned. -/
theorem C7_unsupported_extension (file_path : String) (pdfDocs : List PyDoc)
    (split_documents : List PyDoc → List PyDoc) (docxParas : List String)
    (split_text : String → List String)
    (h1 : pyLower (pathExt file_path) ≠ ".pdf")
    (h2 : pyLower (pathExt file_path) ≠ ".docx") :
    load_and_chunk file_path pdfDocs split_documents docxParas split_text =
      .error unsupportedMsg := by
  simp [load_and_chunk, h1, h2]

/-- C7 witness: a concrete `.txt` path is rejected. -/
theorem C7_unsupported_extension_witness :
    load_and_chunk "notes.txt" [] (fun d => d) [] (fun _ => []) =
      .error unsupportedMsg :=
  C7_unsupported_extension "notes.txt" [] (fun d => d) [] (fun _ => [])
    (by decide) (by decide)

/-- The page predicate claim C3 asserts of PDF chunks: a positive integer
or null. -/
def pagePositiveOrNone : Option Int → Prop
  | none => True
  | some p => 0 < p

/-- A loaded PDF document whose native page metadata is the integer 0 —
the first page of every document `pypdf` loads, since its page numbering
is 0-based. -/
def pdfDocPageZero : PyDoc :=
  { page_content := "clause text", pageMeta := some (PyVal.pint 0) }

/-- C3 counterexample: on a PDF whose loader metadata carries page 0 (the
loader's numbering is 0-based, so this is every PDF's first page), the
resulting chunk's page is the integer 0, which is not positive — refuting
the claim that a PDF chunk's page is always a *positive* integer or null. -/
theorem C3_counterexample :
    load_and_chunk "policy.pdf" [pdfDocPageZero] (fun d => d) [] (fun _ => []) =
      Except.ok [⟨"clause text", "policy.pdf", some 0⟩] ∧
    ¬ pagePositiveOrNone (some 0) := by
  constructor
  · rfl
  · simp [pagePositiveOrNone]

/-- C3 (amended): for every accepted document, each chunk's source is the
file's basename; on the DOCX branch the chunk pages are exactly
`1, 2, ..., n` in sequence order; on the PDF branch the chunks are exactly
the split documents with their page metadata coerced through Python's
`int(...)`-or-`None` (an integer or null — never a string — but not
necessarily positive, since the loader's native pages are 0-based). -/
theorem C3_chunk_page_metadata (file_path : String) (pdfDocs : List PyDoc)
    (split_documents : List PyDoc → List PyDoc) (docxParas : List String)
    (split_text : String → List String) (cs : List Chunk)
    (h : load_and_chunk file_path pdfDocs split_documents docxParas split_text =
      .ok cs) :
    (∀ c ∈ cs, c.source = pyBasename file_path) ∧
    (pyLower (pathExt file_path) = ".docx" →
      cs.map Chunk.page = (List.range cs.length).map (fun i : Nat => some ((i : Int) + 1))) ∧
    (pyLower (pathExt file_path) = ".pdf" →
      cs = (split_documents pdfDocs).map (fun d =>
        ⟨d.page_content, pyBasename file_path,
         pyIntOf (d.pageMeta.getD (PyVal.pstr "?"))⟩)) := by
  by_cases hp : pyLower (pathExt file_path) = ".pdf"
  · rw [load_and_chunk, if_pos hp] at h
    injection h with h
    subst h
    refine ⟨?_, ?_, fun _ => rfl⟩
    · intro c hc
      simp only [List.mem_map] at hc
      obtain ⟨d, _, rfl⟩ := hc
      rfl
    · intro hd
      rw [hp] at hd
      exact absurd hd (by decide)
  · by_cases hdx : pyLower (pathExt file_path) = ".docx"
    · rw [load_and_chunk, if_neg hp, if_pos hdx] at h
      injection h with h
      subst h
      refine ⟨?_, fun _ => ?_, fun hpp => absurd hpp hp⟩
      · intro c hc
        simp only [List.mem_map] at hc
        obtain ⟨d, _, rfl⟩ := hc
        rfl
      · generalize (split_text
          (String.intercalate "\n" (docxParas.filter (fun t => pyStrip t ≠ "")))) = ts
        rw [List.map_map, List.length_map, List.enum_length]
        have hcomp : (Chunk.page ∘ fun p : Nat × String =>
            ({ text := p.2, source := pyBasename file_path,
               page := some ((p.1 : Int) + 1) } : Chunk)) =
            (fun i : Nat => some ((i : Int) + 1)) ∘ Prod.fst := rfl
        rw [hcomp, ← List.map_map, List.enum_map_fst]
    · rw [load_and_chunk, if_neg hp, if_neg hdx] at h
      cases h

/-- C3 witness: a concrete DOCX run with two chunks gets pages 1, 2. -/
theorem C3_chunk_page_metadata_witness :
    ([⟨"hello\nworld", "a.docx", some 1⟩, ⟨"tail", "a.docx", some 2⟩] : List Chunk).map
        Chunk.page =
      (List.range
        ([⟨"hello\nworld", "a.docx", some 1⟩, ⟨"tail", "a.docx", some 2⟩] : List Chunk).length).map
        (fun i : Nat => some ((i : Int) + 1)) :=
  (C3_chunk_page_metadata "a.docx" [] (fun d => d) ["hello", "world"]
    (fun t => [t, "tail"])
    [⟨"hello\nworld", "a.docx", some 1⟩, ⟨"tail", "a.docx", some 2⟩] rfl).2.1 rfl

/-- A store environment in which `add_texts` fails (say, a reset
connection) and everything else succeeds, the collection already
existing. -/
def qenvAddTextsFail : QEnv :=
  { embeddingsR := .ok (), clientR := .ok (), vectorstoreR := .ok (),
    collectionsR := .ok ["insurance_docs"], createR := .ok (),
    addTextsR := .error "connection reset", fromTextsR := .ok () }

/-- A one-element chunk list to store. -/
def chunk0 : Chunk := { text := "clause", source := "policy.pdf", page := some 1 }

/-- C4 counterexample: when `add_texts` fails, `store_chunks_qdrant`
attempts the upsert a second time through `Qdrant.from_texts` — the trace
holds two storage attempts for the same chunks, refuting "no second attempt
of the failed operation". -/
theorem C4_counterexample :
    (store_chunks_qdrant qenvAddTextsFail [chunk0]).2 =
      [QEffect.getEmbeddings, QEffect.getClient, QEffect.getVectorstore,
       QEffect.listCollections, QEffect.addTexts, QEffect.fromTexts] ∧
    (store_chunks_qdrant qenvAddTextsFail [chunk0]).2.countP isStoreAttempt = 2 ∧
    (store_chunks_qdrant qenvAddTextsFail [chunk0]).1 = .ok () := by
  refine ⟨rfl, ?_, rfl⟩
  decide


/-- Every effect of a duplicate-free trace occurs at most once. -/
theorem count_le_one_of_nodup (l : List QEffect) (h : l.Nodup) (eff : QEffect) :
    l.count eff ≤ 1 :=
  List.nodup_iff_count_le_one.mp h eff

/-- The storage tail of `store_chunks_qdrant`: starting from a duplicate-free
prefix with no storage attempts, it adds at most two storage attempts, a
second one only when `add_texts` failed, and repeats no other effect. -/
theorem upsertStep_spec (env : QEnv) (pre : List QEffect)
    (hpre : pre.countP isStoreAttempt = 0) (hnd : pre.Nodup) :
    ((upsertStep env pre).2.countP isStoreAttempt ≤ 2) ∧
    ((upsertStep env pre).2.countP isStoreAttempt = 2 →
      ∃ e, env.addTextsR = Except.error e) ∧
    (∀ eff, isStoreAttempt eff = false → (upsertStep env pre).2.count eff ≤ 1) := by
  have hcount := count_le_one_of_nodup pre hnd
  cases ha : env.addTextsR with
  | ok u =>
    have htr : (upsertStep env pre).2 = pre ++ [QEffect.addTexts] := by
      simp [upsertStep, ha]
    rw [htr]
    refine ⟨?_, ?_, ?_⟩
    · simp [List.countP_append, hpre, isStoreAttempt]
    · simp [List.countP_append, hpre, isStoreAttempt]
    · intro eff heff
      have h1 : eff ≠ QEffect.addTexts := by
        intro hh; subst hh; simp [isStoreAttempt] at heff
      rw [List.count_append]
      have h0 : List.count eff [QEffect.addTexts] = 0 := by
        simp [List.count_cons, h1]
      rw [h0]
      simpa using hcount eff
  | error e =>
    have htr : (upsertStep env pre).2 = pre ++ [QEffect.addTexts, QEffect.fromTexts] := by
      cases hf : env.fromTextsR <;> simp [upsertStep, ha, hf]
    rw [htr]
    refine ⟨?_, fun _ => ⟨e, rfl⟩, ?_⟩
    · simp [List.countP_append, hpre, isStoreAttempt]
    · intro eff heff
      have h1 : eff ≠ QEffect.addTexts := by
        intro hh; subst hh; simp [isStoreAttempt] at heff
      have h2 : eff ≠ QEffect.fromTexts := by
        intro hh; subst hh; simp [isStoreAttempt] at heff
      rw [List.count_append]
      have h0 : List.count eff [QEffect.addTexts, QEffect.fromTexts] = 0 := by
        simp [List.count_cons, h1, h2]
      rw [h0]
      simpa using hcount eff

/-- Every run of `store_chunks_qdrant` either stops inside the duplicate-free
storage-free preamble, or reaches the upsert tail after such a preamble. -/
theorem store_trace_dichotomy (env : QEnv) (chunks : List Chunk) :
    ∃ pre : List QEffect, pre.countP isStoreAttempt = 0 ∧ pre.Nodup ∧
      ((store_chunks_qdrant env chunks).2 = pre ∨
        (store_chunks_qdrant env chunks).2 = (upsertStep env pre).2) := by
  by_cases hemp : chunks.isEmpty
  · exact ⟨[], by decide, by decide, Or.inl (by simp [store_chunks_qdrant, hemp])⟩
  · cases he : env.embeddingsR with
    | error e =>
      exact ⟨[QEffect.getEmbeddings], by decide, by decide,
        Or.inl (by simp [store_chunks_qdrant, hemp, he])⟩
    | ok u =>
      cases hc : env.clientR with
      | error e =>
        exact ⟨[QEffect.getEmbeddings, QEffect.getClient], by decide, by decide,
          Or.inl (by simp [store_chunks_qdrant, hemp, he, hc])⟩
      | ok u2 =>
        cases hv : env.vectorstoreR with
        | error e =>
          exact ⟨[QEffect.getEmbeddings, QEffect.getClient, QEffect.getVectorstore],
            by decide, by decide,
            Or.inl (by simp [store_chunks_qdrant, hemp, he, hc, hv])⟩
        | ok u3 =>
          by_cases hcol : QDRANT_COLLECTION ∈ (match env.collectionsR with
              | .ok l => l
              | .error _ => [])
          · exact ⟨[QEffect.getEmbeddings, QEffect.getClient, QEffect.getVectorstore,
              QEffect.listCollections], by decide, by decide,
              Or.inr (by simp [store_chunks_qdrant, hemp, he, hc, hv, hcol])⟩
          · cases hcr : env.createR with
            | error e =>
              exact ⟨[QEffect.getEmbeddings, QEffect.getClient, QEffect.getVectorstore,
                QEffect.listCollections, QEffect.createCollection], by decide, by decide,
                Or.inl (by simp [store_chunks_qdrant, hemp, he, hc, hv, hcol, hcr])⟩
            | ok u4 =>
              exact ⟨[QEffect.getEmbeddings, QEffect.getClient, QEffect.getVectorstore,
                QEffect.listCollections, QEffect.createCollection], by decide, by decide,
                Or.inr (by simp [store_chunks_qdrant, hemp, he, hc, hv, hcol, hcr])⟩

/-- C4 (amended): in `store_chunks_qdrant` the vector upsert is the only
operation ever attempted a second time after a failure: at most two storage
attempts occur in any run, a second one only when `add_texts` failed (the
`Qdrant.from_texts` fallback), and every other operation — singleton
construction, collection listing, collection creation — is attempted at
most once. -/
theorem C4_no_retry_except_upsert_fallback (env : QEnv) (chunks : List Chunk) :
    ((store_chunks_qdrant env chunks).2.countP isStoreAttempt ≤ 2) ∧
    ((store_chunks_qdrant env chunks).2.countP isStoreAttempt = 2 →
      ∃ e, env.addTextsR = Except.error e) ∧
    (∀ eff, isStoreAttempt eff = false →
      (store_chunks_qdrant env chunks).2.count eff ≤ 1) := by
  obtain ⟨pre, hcnt, hnd, hcase | hcase⟩ := store_trace_dichotomy env chunks
  · rw [hcase]
    exact ⟨by simp [hcnt], by simp [hcnt],
      fun eff _ => count_le_one_of_nodup pre hnd eff⟩
  · rw [hcase]
    exact upsertStep_spec env pre hcnt hnd

/-- C8: for every authenticated request whose document download, chunking
(non-empty) and storage succeed and whose similarity searches succeed, the
endpoint returns `answers` equal to the questions mapped through the
per-question answer function: exactly one string per question, in the
questions' order (a per-question LLM failure contributes its caught error
string, never a dropped or reordered entry). -/
theorem C8_one_answer_per_question (api_key authorization : String)
    (questions : List String) (env : RunEnv)
    (hauth : ¬ authRejected api_key authorization)
    (hdl : env.downloadR = .ok ())
    (hch : ∃ cs, env.chunksR = .ok cs ∧ cs ≠ [])
    (hst : env.storeR = .ok ())
    (hse : ∀ q ∈ questions, ∃ docs, env.searchR q = .ok docs) :
    (hackrx_run api_key authorization questions env).1 =
      .ok (questions.map (answerOf env)) ∧
    (questions.map (answerOf env)).length = questions.length := by
  obtain ⟨cs, hcs, hne⟩ := hch
  have hloop := answersLoop_ok env questions hse
  have hempty : cs.isEmpty = false := by
    cases cs with
    | nil => exact absurd rfl hne
    | cons a l => rfl
  refine ⟨?_, List.length_map _ _⟩
  rw [hackrx_run, if_neg hauth, hdl, hcs]
  simp only [hempty, Bool.false_eq_true, if_false, hst]
  rw [hloop]

/-- A concrete successful run environment: one stored chunk, empty search
results, the LLM succeeding on the first question and failing on the
second. -/
def runEnvDemo : RunEnv :=
  { downloadR := .ok ()
    chunksR := .ok [chunk0]
    storeR := .ok ()
    searchR := fun _ => .ok []
    genR := fun q => if q = "What is covered?" then .ok " Room rent. " else .error "timeout" }

/-- C8 witness: a concrete two-question run answers both questions in
order (the second through the caught-error string). -/
theorem C8_one_answer_per_question_witness :
    (hackrx_run "secret" "Bearer secret" ["What is covered?", "What is excluded?"]
        runEnvDemo).1 =
      .ok (["What is covered?", "What is excluded?"].map (answerOf runEnvDemo)) ∧
    ((["What is covered?", "What is excluded?"] : List String).map
        (answerOf runEnvDemo)).length =
      (["What is covered?", "What is excluded?"] : List String).length :=
  C8_one_answer_per_question "secret" "Bearer secret"
    ["What is covered?", "What is excluded?"] runEnvDemo
    (by decide) rfl ⟨[chunk0], rfl, by simp⟩ rfl
    (by intro q _; exact ⟨[], rfl⟩)

/-- C9: whenever the Authorization header value is missing (empty), does
not start with `Bearer `, or carries a token different from the configured
secret, the endpoint answers 401 with the handler's message, and the empty
effect trace shows that no download, chunking, storage, search or LLM call
is attempted — for every payload. -/
theorem C9_auth_rejected_before_processing (api_key authorization : String)
    (questions : List String) (env : RunEnv)
    (h : authRejected api_key authorization) :
    hackrx_run api_key authorization questions env =
      (.error (401, "Invalid or missing API key"), []) := by
  rw [hackrx_run, if_pos h]

/-- C9 witness: a concrete wrong-token request is rejected with 401 and an
empty trace. -/
theorem C9_auth_rejected_before_processing_witness :
    hackrx_run "secret" "Bearer wrong-token" ["any question"] runEnvDemo =
      (.error (401, "Invalid or missing API key"), []) :=
  C9_auth_rejected_before_processing "secret" "Bearer wrong-token"
    ["any question"] runEnvDemo (Or.inr (Or.inr (by decide)))
